import Mathlib

/-!
Verification of the filter-and-derive pipeline of the regional-innovation
dashboard (source: dashboard_inovasi_final_fix.py).

The Python source manipulates pandas DataFrames.  The shallow embedding
below models a DataFrame as a list of typed rows plus column-presence
flags; a missing (NaN / None) cell is `Option.none`.  Numeric cells are
rationals (the source only compares, adds and scales finite decimal
values).  Text operations of the source (lower, strip, title, split,
substring containment) are modelled character-by-character on ASCII
`List Char` data, matching the Python string methods on the ASCII inputs
the dataset uses.
-/

namespace Dashboard

/-- Checks whether `pre` is a prefix of `l`, by characters.
Models the primitive used by the Python substring test. -/
def isPrefixList : List Char → List Char → Bool
  | [], _ => true
  | _ :: _, [] => false
  | a :: as, b :: bs => a == b && isPrefixList as bs

/-- Substring containment: `containsSub needle hay` is the Python
expression `needle in hay`. -/
def containsSub (needle : List Char) : List Char → Bool
  | [] => needle.isEmpty
  | c :: cs => isPrefixList needle (c :: cs) || containsSub needle cs

/-- Python `str.lower()` on ASCII data. -/
def pyLower (cs : List Char) : List Char := cs.map Char.toLower

/-- Python `str.strip()` on ASCII data: drop leading and trailing
whitespace. -/
def pyStrip (cs : List Char) : List Char :=
  ((cs.dropWhile Char.isWhitespace).reverse.dropWhile Char.isWhitespace).reverse

/-- One step of Python `str.title()`: the boolean argument records
whether the previous character was alphabetic (cased). -/
def pyTitleChars : Bool → List Char → List Char
  | _, [] => []
  | prev, c :: cs =>
    let c2 := if c.isAlpha then (if prev then c.toLower else c.toUpper) else c
    c2 :: pyTitleChars c.isAlpha cs

/-- Python `str.title()` on ASCII data. -/
def pyTitle (cs : List Char) : List Char := pyTitleChars false cs

/-- Splits a character list at the first occurrence of `sep`, at most
once: the Python `s.split(sep, 1)` / the first element of
`s.split(sep)`.  The second component is `none` when `sep` does not
occur. -/
def splitOnce (sep : Char) : List Char → List Char × Option (List Char)
  | [] => ([], none)
  | c :: cs =>
    if c == sep then ([], some cs)
    else
      let lr := splitOnce sep cs
      (c :: lr.1, lr.2)

/-- The organisation-grouping heuristic `categorize_admin` of
`load_data` (source lines 77-86).  `none` is a NaN cell.  The grouping
returns the fixed labels "Lainnya" (the spec calls it "Other"),
"Dinas Pendidikan" (spec: "Education Department"), "Admin IGA 2025",
or the text before the first ".", stripped and title-cased. -/
def categorize_admin (admin : Option String) : String :=
  match admin with
  | none => "Lainnya"
  | some a =>
    let adminLower := pyLower a.data
    if ["sma", "smk", "slb"].any (fun x => containsSub x.data adminLower) then
      "Dinas Pendidikan"
    else if containsSub "iga2025.provinsi.jawa.timur".data adminLower then
      "Admin IGA 2025"
    else
      ⟨pyTitle (pyStrip (splitOnce '.' a.data).1)⟩

example : categorize_admin none = "Lainnya" := by decide
example : categorize_admin (some "SMKN 1 Surabaya") = "Dinas Pendidikan" := by decide
example : categorize_admin (some "dinas.kesehatan.jatim") = "Dinas" := by decide
example : categorize_admin (some " ") = "" := by decide
example : categorize_admin (some "") = "" := by decide
example : categorize_admin (some "Badan iga2025.provinsi.jawa.timur x") = "Admin IGA 2025" := by decide

/-! ### Numeric coercion and coordinate splitting (Schema Normalizer) -/

/-- All characters are ASCII digits. -/
def allDigits (cs : List Char) : Bool := cs.all Char.isDigit

/-- Value of a run of ASCII digits. -/
def natOfDigits (cs : List Char) : Nat := cs.foldl (fun a c => a * 10 + (c.toNat - 48)) 0

/-- Strips an optional leading sign; `true` means negative. -/
def splitSign : List Char → Bool × List Char
  | '-' :: rest => (true, rest)
  | '+' :: rest => (false, rest)
  | cs => (false, cs)

/-- Unsigned finite-decimal parse, returning integer part value,
fraction part value and fraction length: digits with at most one
decimal point, at least one digit overall (Python accepts "1.", ".5").
The numeric value is only assembled afterwards by `decimalQ`. -/
def parseDecimalParts (cs : List Char) : Option (Nat × Nat × Nat) :=
  let ip := (splitOnce '.' cs).1
  match (splitOnce '.' cs).2 with
  | none =>
    if allDigits ip && !ip.isEmpty then some (natOfDigits ip, 0, 0) else none
  | some fp =>
    if allDigits ip && allDigits fp && !(ip.isEmpty && fp.isEmpty) then
      some (natOfDigits ip, natOfDigits fp, fp.length)
    else none

/-- Assembles the rational value of a parsed decimal literal. -/
def decimalQ (neg : Bool) (p : Nat × Nat × Nat) : ℚ :=
  let q : ℚ := (p.1 : ℚ) + (p.2.1 : ℚ) / (10 : ℚ) ^ p.2.2
  if neg then -q else q

/-- The cell-level semantics of `pd.to_numeric(· , errors="coerce")` on
a string cell: an optionally signed finite decimal literal, surrounding
whitespace ignored; anything else coerces to null.  (Exponent, inf and
nan forms are not used by the dataset or the claims; a "nan" literal
would coerce to NaN, i.e. null, which the `none` result also models.) -/
def to_numeric (s : String) : Option ℚ :=
  let sc := splitSign (pyStrip s.data)
  (parseDecimalParts sc.2).map (decimalQ sc.1)

/-- The per-cell split of the combined "Koordinat" column (source line
59): `str.split(",", n=1)`, i.e. split at most once, at the first
comma. -/
def koordCell (cell : String) : List Char × Option (List Char) :=
  splitOnce ',' cell.data

/-- The whole "Koordinat"-column transformation of `load_data` (source
lines 58-61).  `pd.Series.str.split(",", n=1, expand=True)` produces
`1 + (maximum number of splits over the column)` columns; when no cell
contains a comma it produces a single column and the subsequent access
`coords[1]` raises `KeyError: 1`, modelled by the `error` branch.
Otherwise each cell yields `(to_numeric left, to_numeric right)`, the
right half being null for a comma-free cell (its column-1 entry is
`None`, which `to_numeric` coerces to null). -/
def splitKoordinat (cells : List String) : Except String (List (Option ℚ × Option ℚ)) :=
  if cells.all (fun c => (koordCell c).2.isNone) then
    Except.error "KeyError: 1"
  else
    Except.ok (cells.map (fun c =>
      (to_numeric ⟨(koordCell c).1⟩, (koordCell c).2.bind (fun r => to_numeric ⟨r⟩))))

example : to_numeric "112.75" = some (451/4) := by
  have h1 : splitSign (pyStrip "112.75".data) = (false, ['1','1','2','.','7','5']) := by decide
  have h2 : parseDecimalParts ['1','1','2','.','7','5'] = some (112, 75, 2) := by decide
  simp only [to_numeric, h1, h2, Option.map_some]
  norm_num [decimalQ]
example : to_numeric "-7.25" = some (-29/4) := by
  have h1 : splitSign (pyStrip "-7.25".data) = (true, ['7','.','2','5']) := by decide
  have h2 : parseDecimalParts ['7','.','2','5'] = some (7, 25, 2) := by decide
  simp only [to_numeric, h1, h2, Option.map_some]
  norm_num [decimalQ]
example : to_numeric "abc" = none := by
  have h1 : splitSign (pyStrip "abc".data) = (false, ['a','b','c']) := by decide
  have h2 : parseDecimalParts ['a','b','c'] = none := by decide
  simp only [to_numeric, h1, h2]
  rfl
example : splitKoordinat ["abc"] = Except.error "KeyError: 1" := rfl

/-! ### The Filter Engine (`apply_filters`, source lines 201-243)

A `Row` carries the cells of the columns that `apply_filters` reads; a
`none` cell is NaN.  A `Frame` is the derived record collection: its
rows plus the column-presence flags that the source tests with
`"col" in df.columns` (row filtering never changes the columns, so the
flags are constant through the pipeline).  `FilterParams` is the
predicate set: the widget values and the two module-level globals
(`search_astacipta`, and the map pair `daerah_col`/`daerah_selected`)
whose existence the source tests with `"name" in globals()` —
modelled with `Option`, `none` meaning the variable is not bound
(or, for `daerahSelected`, that no region column exists). -/

structure Row where
  kematangan : Option ℚ
  jenis : Option String
  adminOPDGrouped : Option String
  kategoriAdminOPD : Option String
  urusanUtama : Option String
  astaCipta : Option String
  daerah : Option String
deriving DecidableEq

structure Frame where
  rows : List Row
  hasKematangan : Bool
  hasJenis : Bool
  hasAdminOPDGrouped : Bool
  hasKategoriAdminOPD : Bool
  hasUrusanUtama : Bool
deriving DecidableEq

structure FilterParams where
  minKematangan : ℚ
  jenisSelected : List String
  opdSelected : List String
  kategoriSelected : Option (List String)
  urusanSelected : Option (List String)
  searchAstacipta : Option String
  daerahSelected : Option String

/-- Pandas `series.isin(sel)` on a text cell: a NaN cell is never a
member of a list of strings. -/
def isinPred (sel : List String) : Option String → Bool
  | none => false
  | some s => sel.contains s

/-- Pandas `str(x)` as applied by `.astype(str)`: a NaN cell becomes
the literal string "nan". -/
def pdStr : Option String → String
  | none => "nan"
  | some s => s

/-- Case-insensitive literal substring containment:
`str.contains(q, case=False)` for a pattern without regex
metacharacters (the claims describe plain substring search). -/
def containsCI (hay q : String) : Bool :=
  containsSub (pyLower q.data) (pyLower hay.data)

/-- The maturity predicate (source line 215): `Kematangan >= threshold`;
`NaN >= t` is false in pandas. -/
def kematanganPred (t : ℚ) (r : Row) : Bool :=
  match r.kematangan with
  | none => false
  | some m => decide (t ≤ m)

/-- Membership of the row's `Jenis` cell in the selected set (line 219). -/
def jenisPred (sel : List String) (r : Row) : Bool := isinPred sel r.jenis

/-- Membership of the row's `Admin OPD Grouped` cell (line 223). -/
def opdPred (sel : List String) (r : Row) : Bool := isinPred sel r.adminOPDGrouped

/-- Membership of the row's `Kategori Admin OPD` cell (line 227). -/
def kategoriPred (sel : List String) (r : Row) : Bool := isinPred sel r.kategoriAdminOPD

/-- Membership of the row's `Urusan Utama` cell (line 231). -/
def urusanPred (sel : List String) (r : Row) : Bool := isinPred sel r.urusanUtama

/-- The free-text search over `Asta Cipta` (lines 235-237):
`astype(str)` first (NaN becomes "nan"), then case-insensitive
containment with `na=False` (dead after the cast). -/
def searchPred (q : String) (r : Row) : Bool := containsCI (pdStr r.astaCipta) q

/-- Region equality for the map filter (line 241); `NaN == s` is false. -/
def daerahPred (sel : String) (r : Row) : Bool := r.daerah == some sel

/-- Guard of the maturity dimension: applied whenever the column exists. -/
def kemActive (df : Frame) : Bool := df.hasKematangan

/-- Guard of the `Jenis` dimension (line 218). -/
def jenisActive (df : Frame) (p : FilterParams) : Bool :=
  df.hasJenis && !p.jenisSelected.isEmpty && !p.jenisSelected.contains "All"

/-- Guard of the `Admin OPD Grouped` dimension (line 222). -/
def opdActive (df : Frame) (p : FilterParams) : Bool :=
  df.hasAdminOPDGrouped && !p.opdSelected.isEmpty && !p.opdSelected.contains "All"

/-- Guard of the `Kategori Admin OPD` dimension (line 226):
`kategori_selected` must be bound, truthy and without "All", and the
column must exist. -/
def kategoriActive (df : Frame) (p : FilterParams) : Bool :=
  match p.kategoriSelected with
  | none => false
  | some sel => !sel.isEmpty && !sel.contains "All" && df.hasKategoriAdminOPD

/-- Guard of the `Urusan Utama` dimension (line 230). -/
def urusanActive (df : Frame) (p : FilterParams) : Bool :=
  match p.urusanSelected with
  | none => false
  | some sel => !sel.isEmpty && !sel.contains "All" && df.hasUrusanUtama

/-- Guard of the `Asta Cipta` search (line 234): the global must be
bound and truthy (a nonempty string). -/
def searchActive (p : FilterParams) : Bool :=
  match p.searchAstacipta with
  | none => false
  | some q => !(q == "")

/-- Guard of the region filter (line 240): a region column was found
and the selection differs from "All". -/
def daerahActive (p : FilterParams) : Bool :=
  match p.daerahSelected with
  | none => false
  | some s => !(s == "All")

/-- One conditional filtering step of `apply_filters`: the pattern
`if c: df = df[pred]`. -/
def stage (c : Bool) (p : Row → Bool) (l : List Row) : List Row :=
  if c then l.filter p else l

/-- The Filter Engine `apply_filters` (source lines 201-243): the
seven predicate dimensions applied sequentially, in source order, to a
copy of the frame.  Row selection never alters the columns, so the
output keeps the presence flags. -/
def apply_filters (df : Frame) (p : FilterParams) : Frame :=
  let r0 := df.rows
  let r1 := stage (kemActive df) (kematanganPred p.minKematangan) r0
  let r2 := stage (jenisActive df p) (jenisPred p.jenisSelected) r1
  let r3 := stage (opdActive df p) (opdPred p.opdSelected) r2
  let r4 := stage (kategoriActive df p) (kategoriPred (p.kategoriSelected.getD [])) r3
  let r5 := stage (urusanActive df p) (urusanPred (p.urusanSelected.getD [])) r4
  let r6 := stage (searchActive p) (searchPred (p.searchAstacipta.getD "")) r5
  let r7 := stage (daerahActive p) (daerahPred (p.daerahSelected.getD "All")) r6
  { df with rows := r7 }

/-- The same seven dimensions applied in the reverse order. -/
def apply_filters_rev (df : Frame) (p : FilterParams) : Frame :=
  let r0 := df.rows
  let r1 := stage (daerahActive p) (daerahPred (p.daerahSelected.getD "All")) r0
  let r2 := stage (searchActive p) (searchPred (p.searchAstacipta.getD "")) r1
  let r3 := stage (urusanActive df p) (urusanPred (p.urusanSelected.getD [])) r2
  let r4 := stage (kategoriActive df p) (kategoriPred (p.kategoriSelected.getD [])) r3
  let r5 := stage (opdActive df p) (opdPred p.opdSelected) r4
  let r6 := stage (jenisActive df p) (jenisPred p.jenisSelected) r5
  let r7 := stage (kemActive df) (kematanganPred p.minKematangan) r6
  { df with rows := r7 }

/-- The conjunction (logical AND) of all seven guarded predicates, as
one pass over the base collection. -/
def filterConj (df : Frame) (p : FilterParams) (r : Row) : Bool :=
  (!kemActive df || kematanganPred p.minKematangan r)
  && (!jenisActive df p || jenisPred p.jenisSelected r)
  && (!opdActive df p || opdPred (p.opdSelected) r)
  && (!kategoriActive df p || kategoriPred (p.kategoriSelected.getD []) r)
  && (!urusanActive df p || urusanPred (p.urusanSelected.getD []) r)
  && (!searchActive p || searchPred (p.searchAstacipta.getD "") r)
  && (!daerahActive p || daerahPred (p.daerahSelected.getD "All") r)

theorem stage_eq_filter (c : Bool) (p : Row → Bool) (l : List Row) :
    stage c p l = l.filter (fun r => !c || p r) := by
  cases c <;> simp [stage]

theorem stage_sublist (c : Bool) (p : Row → Bool) (l : List Row) :
    (stage c p l).Sublist l := by
  cases c <;> simp [stage]

theorem apply_filters_eq_conj (df : Frame) (p : FilterParams) :
    apply_filters df p = { df with rows := df.rows.filter (filterConj df p) } := by
  have hb : ∀ b1 b2 b3 b4 b5 b6 b7 : Bool,
      (b7 && (b6 && (b5 && (b4 && (b3 && (b2 && b1)))))) =
      (b1 && b2 && b3 && b4 && b5 && b6 && b7) := by decide
  unfold apply_filters
  simp only [stage_eq_filter, List.filter_filter]
  congr 1
  apply List.filter_congr
  intro r _
  exact hb _ _ _ _ _ _ _

theorem apply_filters_rev_eq_conj (df : Frame) (p : FilterParams) :
    apply_filters_rev df p = { df with rows := df.rows.filter (filterConj df p) } := by
  have hb : ∀ b1 b2 b3 b4 b5 b6 b7 : Bool,
      (b1 && (b2 && (b3 && (b4 && (b5 && (b6 && b7)))))) =
      (b1 && b2 && b3 && b4 && b5 && b6 && b7) := by decide
  unfold apply_filters_rev
  simp only [stage_eq_filter, List.filter_filter]
  congr 1
  apply List.filter_congr
  intro r _
  exact hb _ _ _ _ _ _ _

/-- C1: for every derived record collection and every filter predicate
set, the active filters compose by logical AND (the sequential
`apply_filters` pipeline equals one filtering pass with the conjunction
`filterConj` of all guarded dimension predicates), and the order of the
predicate dimensions does not change the resulting ActiveView (the
fully reversed pipeline gives the same frame); in particular the pair
{minimum maturity = 50, kind = ["Digital"]} applied in either order
yields the same result on every row collection. -/
theorem claim1_filter_composition (df : Frame) (p : FilterParams) :
    apply_filters df p = { df with rows := df.rows.filter (filterConj df p) }
  ∧ apply_filters_rev df p = apply_filters df p
  ∧ ∀ rows : List Row,
      (rows.filter (kematanganPred 50)).filter (jenisPred ["Digital"])
        = (rows.filter (jenisPred ["Digital"])).filter (kematanganPred 50) := by
  refine ⟨apply_filters_eq_conj df p, ?_, ?_⟩
  · rw [apply_filters_rev_eq_conj, apply_filters_eq_conj]
  · intro rows
    simp only [List.filter_filter]
    apply List.filter_congr
    intro r _
    exact Bool.and_comm _ _

/-- C2: the minimum-maturity filter keeps exactly the rows whose
maturity cell holds a value that is at least the threshold, and a row
with a null maturity cell is excluded whenever a threshold above the
default 0 is set (a null cell compares false). -/
theorem claim2_min_maturity_filter (rows : List Row) (t : ℚ) (r : Row) :
    (r ∈ rows.filter (kematanganPred t) ↔ r ∈ rows ∧ ∃ m : ℚ, r.kematangan = some m ∧ t ≤ m)
  ∧ (0 < t → r.kematangan = none → r ∉ rows.filter (kematanganPred t)) := by
  constructor
  · rw [List.mem_filter]
    constructor
    · rintro ⟨hm, hp⟩
      refine ⟨hm, ?_⟩
      cases hk : r.kematangan with
      | none => rw [kematanganPred, hk] at hp; exact absurd hp (by simp)
      | some m =>
        rw [kematanganPred, hk] at hp
        exact ⟨m, rfl, by simpa using hp⟩
    · rintro ⟨hm, m, hk, ht⟩
      refine ⟨hm, ?_⟩
      rw [kematanganPred, hk]
      simpa using ht
  · intro _ hnone hmem
    rw [List.mem_filter, kematanganPred, hnone] at hmem
    exact absurd hmem.2 (by simp)

/-- Witness for C2 at a concrete collection: with threshold 50, a row
of maturity 80 is kept, and a null-maturity row is dropped. -/
theorem claim2_min_maturity_filter_witness :
    (Row.mk (some 80) none none none none none none) ∈
      [Row.mk (some 80) none none none none none none,
       Row.mk none none none none none none none].filter (kematanganPred 50)
  ∧ (Row.mk none none none none none none none) ∉
      [Row.mk (some 80) none none none none none none,
       Row.mk none none none none none none none].filter (kematanganPred 50) := by
  constructor
  · exact (claim2_min_maturity_filter _ 50 _).1.mpr ⟨by simp, 80, rfl, by norm_num⟩
  · exact (claim2_min_maturity_filter _ 50 _).2 (by norm_num) rfl

/-- C7: for every predicate set the ActiveView is a sublist of the
derived record collection: it has at most as many rows, and each of its
records is a record of the base collection.  The base frame itself is
untouched (the embedding is pure, mirroring the `df.copy()` plus
non-mutating boolean selection of the source). -/
theorem claim7_activeview_subset (df : Frame) (p : FilterParams) :
    ((apply_filters df p).rows).Sublist df.rows
  ∧ (apply_filters df p).rows.length ≤ df.rows.length
  ∧ ∀ r ∈ (apply_filters df p).rows, r ∈ df.rows := by
  have h : (apply_filters df p).rows = df.rows.filter (filterConj df p) := by
    rw [apply_filters_eq_conj]
  refine ⟨?_, ?_, ?_⟩ <;> rw [h]
  · exact List.filter_sublist _
  · exact (List.filter_sublist _).length_le
  · intro r hr
    exact (List.filter_sublist _).subset hr

/-- A concrete one-row frame used by the C7 witness. -/
def w7Row : Row := Row.mk (some 80) (some "Digital") none none none none none

/-- A concrete frame for the C7 witness. -/
def w7Frame : Frame := Frame.mk [w7Row] true true false false false

/-- A concrete predicate set for the C7 witness. -/
def w7Params : FilterParams := FilterParams.mk 50 ["All"] ["All"] none none none none

/-- Witness for C7: at the concrete frame, the kept row is a member of
the base collection and the length bound holds. -/
theorem claim7_activeview_subset_witness :
    w7Row ∈ w7Frame.rows ∧ (apply_filters w7Frame w7Params).rows.length ≤ w7Frame.rows.length := by
  constructor
  · exact (claim7_activeview_subset w7Frame w7Params).2.2 w7Row (by decide)
  · exact (claim7_activeview_subset w7Frame w7Params).2.1

/-- C10 (implicit): whenever the maturity column is present,
`apply_filters` applies `Kematangan >= threshold` unconditionally —
there is no "All"/unset guard on this dimension and the default
threshold 0 is included — so a row with a null maturity cell never
appears in the ActiveView even when the user has set no filter above
its default. -/
theorem claim10_null_maturity_excluded (df : Frame) (p : FilterParams) (r : Row)
    (hcol : df.hasKematangan = true)
    (hmem : r ∈ (apply_filters df p).rows) : r.kematangan ≠ none := by
  have h := congrArg Frame.rows (apply_filters_eq_conj df p)
  rw [h] at hmem
  have hp := (List.mem_filter.mp hmem).2
  rw [filterConj] at hp
  simp only [Bool.and_eq_true] at hp
  obtain ⟨⟨⟨⟨⟨⟨h1, _⟩, _⟩, _⟩, _⟩, _⟩, _⟩ := hp
  have h2 : kematanganPred p.minKematangan r = true := by
    rcases Bool.or_eq_true_iff.mp h1 with hn | hk2
    · rw [kemActive, hcol] at hn
      exact absurd hn (by simp)
    · exact hk2
  intro hnone
  rw [kematanganPred, hnone] at h2
  exact absurd h2 (by simp)

/-- Witness for C10: at a concrete frame with the maturity column
present and the default threshold 0, the theorem applies to the kept
row and yields that its maturity is non-null. -/
theorem claim10_null_maturity_excluded_witness :
    (Row.mk (some 0) none none none none none none).kematangan ≠ none := by
  exact claim10_null_maturity_excluded
    (Frame.mk [Row.mk (some 0) none none none none none none] true false false false false)
    (FilterParams.mk 0 ["All"] ["All"] none none none none)
    (Row.mk (some 0) none none none none none none)
    rfl (by decide)

/-- A row whose `Asta Cipta` cell is null, for C9. -/
def c9Row : Row := Row.mk (some 100) none none none none none none

/-- A one-row frame for C9. -/
def c9Frame : Frame := Frame.mk [c9Row] false false false false false

/-- A predicate set for C9 whose only active dimension is the free-text
search with the query "an". -/
def c9Params : FilterParams :=
  FilterParams.mk 0 ["All"] ["All"] none none (some "an") none

/-- C9 (code bug evaluation): the claim — and the intent signalled by
the source passing `na=False` — says a row whose designated search
field is null never matches the free-text query.  But the source casts
the column with `astype(str)` before matching, turning the null into
the literal string "nan", so with the query "an" (a case-insensitive
substring of "nan") the active search filter keeps the null row. -/
theorem claim9_null_search_matches :
    (apply_filters c9Frame c9Params).rows = [c9Row]
  ∧ c9Row.astaCipta = none
  ∧ searchActive c9Params = true
  ∧ searchPred "an" c9Row = true := by
  exact ⟨by decide, rfl, rfl, by decide⟩

/-- C3 counterexample: the claim says a null or blank
administering-organization value is grouped as "Other" ("Lainnya" in
the source); the code only checks `pd.isna`, so a blank string falls
through to the default branch and is grouped as the empty string. -/
theorem claim3_blank_counterexample :
    categorize_admin (some " ") = "" ∧ categorize_admin (some " ") ≠ "Lainnya" := by
  exact ⟨by decide, by decide⟩

/-- C3 (amended): `orgGroup` is "Lainnya" ("Other") exactly for a null
value; for text, a lower-cased substring match against the ordered
keyword list is tried first ({"sma","smk","slb"} giving
"Dinas Pendidikan", the spec's "Education Department"), then the
sentinel substring giving "Admin IGA 2025", and otherwise the text
truncated at the first ".", stripped and title-cased — a blank string
therefore yields "" rather than "Lainnya".  In particular
"SMKN 1 Surabaya" is grouped as "Dinas Pendidikan" and
"dinas.kesehatan.jatim" as "Dinas". -/
theorem claim3_org_grouping_amended :
    categorize_admin none = "Lainnya"
  ∧ (∀ s : String,
      (["sma", "smk", "slb"].any (fun x => containsSub x.data (pyLower s.data))) = true →
      categorize_admin (some s) = "Dinas Pendidikan")
  ∧ (∀ s : String,
      (["sma", "smk", "slb"].any (fun x => containsSub x.data (pyLower s.data))) = false →
      containsSub "iga2025.provinsi.jawa.timur".data (pyLower s.data) = true →
      categorize_admin (some s) = "Admin IGA 2025")
  ∧ (∀ s : String,
      (["sma", "smk", "slb"].any (fun x => containsSub x.data (pyLower s.data))) = false →
      containsSub "iga2025.provinsi.jawa.timur".data (pyLower s.data) = false →
      categorize_admin (some s) = ⟨pyTitle (pyStrip (splitOnce '.' s.data).1)⟩)
  ∧ categorize_admin (some "SMKN 1 Surabaya") = "Dinas Pendidikan"
  ∧ categorize_admin (some "dinas.kesehatan.jatim") = "Dinas" := by
  refine ⟨rfl, ?_, ?_, ?_, by decide, by decide⟩
  · intro s h
    simp [categorize_admin, h]
  · intro s h1 h2
    simp [categorize_admin, h1, h2]
  · intro s h1 h2
    simp [categorize_admin, h1, h2]

/-- Witness for C3 (amended), exercising the keyword branch and the
sentinel branch at concrete inputs. -/
theorem claim3_org_grouping_amended_witness :
    categorize_admin (some "sma negeri 1") = "Dinas Pendidikan"
  ∧ categorize_admin (some "badan iga2025.provinsi.jawa.timur") = "Admin IGA 2025" := by
  constructor
  · exact claim3_org_grouping_amended.2.1 "sma negeri 1" (by decide)
  · exact claim3_org_grouping_amended.2.2.1 "badan iga2025.provinsi.jawa.timur"
      (by decide) (by decide)

/-! ### Loading and degradation (`load_data`, source lines 17-32, and
the pre-filter guard at lines 194-197) -/

/-- A raw spreadsheet row, as a list of cell texts. -/
abbrev RawRow := List String

/-- A message surfaced to the user through the UI layer. -/
inductive UiMessage where
  | errorMsg (s : String)
  | warningMsg (s : String)
  | infoMsg (s : String)
  | successMsg (s : String)
deriving DecidableEq

/-- The `load_data` entry point (source lines 17-91) at the granularity
the error-handling claim needs.  The argument is the outcome of the
`pd.read_excel`/`pd.ExcelFile` call: an exception message or the parsed
rows.  An exception is caught and reported via `st.error`, returning an
empty collection; an empty parse is reported via `st.warning`, also
returning an empty collection; otherwise the rows are deduplicated
(`drop_duplicates`, keeping first occurrences) with an informational
message, and a success message is emitted.  (The per-column coercions of
the success path are modelled separately by `to_numeric`,
`splitKoordinat` and `categorize_admin`; they do not affect the failure
paths this models.) -/
def load_data (input : Except String (List RawRow)) : List RawRow × List UiMessage :=
  match input with
  | Except.error e => ([], [UiMessage.errorMsg ("Gagal memuat file: " ++ e)])
  | Except.ok rows =>
    if rows.isEmpty then
      ([], [UiMessage.warningMsg "Data kosong atau tidak terbaca."])
    else
      let deduped := rows.eraseDups
      let cleanMsg :=
        if deduped.length == rows.length then
          UiMessage.successMsg "Tidak ada data duplikat. Data sudah bersih."
        else
          UiMessage.infoMsg "Hapus duplikat."
      (deduped, [cleanMsg, UiMessage.successMsg "Data berhasil dimuat"])

/-- The state the page reaches after the pre-filter guard (source lines
194-197): an empty collection stops the page with a warning (a
non-fatal "no data" state); otherwise the dashboard renders. -/
inductive AppState where
  | noData
  | running (view : List RawRow)
deriving DecidableEq

/-- The pre-filter guard `if df.empty: st.warning(...); st.stop()`. -/
def dashboardGate (res : List RawRow × List UiMessage) : AppState :=
  if res.1.isEmpty then AppState.noData else AppState.running res.1

/-- C8: if the source spreadsheet cannot be parsed, loading reports an
error to the user and returns an empty record collection instead of
raising; an empty parse likewise yields a warning and an empty
collection; and the application then degrades to the non-fatal
"no data" state.  `load_data` and `dashboardGate` are total functions:
every outcome is either the "no data" state or a rendered view — never
a crash. -/
theorem claim8_load_error_handling (e : String) (input : Except String (List RawRow)) :
    load_data (Except.error e) = ([], [UiMessage.errorMsg ("Gagal memuat file: " ++ e)])
  ∧ load_data (Except.ok []) = ([], [UiMessage.warningMsg "Data kosong atau tidak terbaca."])
  ∧ dashboardGate (load_data (Except.error e)) = AppState.noData
  ∧ dashboardGate (load_data (Except.ok [])) = AppState.noData
  ∧ (dashboardGate (load_data input) = AppState.noData
      ∨ ∃ view, dashboardGate (load_data input) = AppState.running view) := by
  refine ⟨rfl, rfl, rfl, rfl, ?_⟩
  by_cases h : (load_data input).1.isEmpty
  · left
    rw [dashboardGate, if_pos h]
  · right
    exact ⟨(load_data input).1, by rw [dashboardGate, if_neg h]⟩

/-! ### Region resolution (`get_nearest_area`, source lines 620-626) -/

/-- One gazetteer entry of the reference table `map_jatim`: a region
name with representative coordinates. -/
structure RefEntry where
  kabupaten : String
  lat : ℚ
  lon : ℚ
deriving DecidableEq

/-- The Manhattan distance of a record's point to a gazetteer entry
(source line 621): `abs(ref.lat - lat) + abs(ref.lon - lon)`. -/
def manhattanDiff (lat lon : ℚ) (e : RefEntry) : ℚ :=
  |e.lat - lat| + |e.lon - lon|

/-- Pandas `Series.idxmin` over the distance column, as a fold that
keeps the first entry attaining the minimum (strict comparison keeps
the earlier entry on ties, like `idxmin`). -/
def idxminFold (d : RefEntry → ℚ) : RefEntry → List RefEntry → RefEntry
  | best, [] => best
  | best, x :: xs => idxminFold d (if d x < d best then x else best) xs

/-- `get_nearest_area` (source lines 620-626): the entry of minimal
Manhattan distance decides the region name when its distance is below
the threshold (default 0.01 at the only call site); otherwise the
"unidentified" sentinel is returned.  On an empty gazetteer the source
`idxmin` raises, modelled by `none`. -/
def get_nearest_area (lat lon : ℚ) (ref : List RefEntry) (threshold : ℚ) : Option String :=
  match ref with
  | [] => none
  | e :: es =>
    let best := idxminFold (manhattanDiff lat lon) e es
    if manhattanDiff lat lon best < threshold then some best.kabupaten
    else some "Wilayah Jawa Timur (tidak teridentifikasi spesifik)"

theorem idxminFold_spec (d : RefEntry → ℚ) (e : RefEntry) (es : List RefEntry) :
    idxminFold d e es ∈ e :: es
  ∧ (∀ x ∈ e :: es, d (idxminFold d e es) ≤ d x)
  ∧ ∃ pre post, e :: es = pre ++ idxminFold d e es :: post
      ∧ ∀ x ∈ pre, d (idxminFold d e es) < d x := by
  induction es generalizing e with
  | nil =>
    refine ⟨List.mem_cons_self _ _, ?_, [], [], rfl, ?_⟩
    · intro x hx
      rw [List.mem_singleton] at hx
      rw [idxminFold, hx]
    · intro x hx
      exact absurd hx (List.not_mem_nil x)
  | cons x xs ih =>
    by_cases h : d x < d e
    · have hstep : idxminFold d e (x :: xs) = idxminFold d x xs := by
        rw [idxminFold, if_pos h]
      obtain ⟨hmem, hmin, pre, post, hdec, hpre⟩ := ih x
      rw [hstep]
      refine ⟨List.mem_cons_of_mem e hmem, ?_, e :: pre, post,
        by rw [List.cons_append, hdec], ?_⟩
      · intro y hy
        rcases List.mem_cons.mp hy with hye | hyx
        · rw [hye]
          exact le_of_lt (lt_of_le_of_lt (hmin x (List.mem_cons_self x xs)) h)
        · exact hmin y hyx
      · intro y hy
        rcases List.mem_cons.mp hy with hye | hyp
        · rw [hye]
          exact lt_of_le_of_lt (hmin x (List.mem_cons_self x xs)) h
        · exact hpre y hyp
    · have hstep : idxminFold d e (x :: xs) = idxminFold d e xs := by
        rw [idxminFold, if_neg h]
      have hex : d e ≤ d x := le_of_not_lt h
      obtain ⟨hmem, hmin, pre, post, hdec, hpre⟩ := ih e
      rw [hstep]
      have hminc : ∀ y ∈ e :: x :: xs, d (idxminFold d e xs) ≤ d y := by
        intro y hy
        rcases List.mem_cons.mp hy with hye | hy2
        · rw [hye]
          exact hmin e (List.mem_cons_self e xs)
        · rcases List.mem_cons.mp hy2 with hyx | hyxs
          · rw [hyx]
            exact le_trans (hmin e (List.mem_cons_self e xs)) hex
          · exact hmin y (List.mem_cons_of_mem e hyxs)
      refine ⟨?_, hminc, ?_⟩
      · rcases List.mem_cons.mp hmem with he | hxs
        · rw [he]
          exact List.mem_cons_self _ _
        · exact List.mem_cons_of_mem e (List.mem_cons_of_mem x hxs)
      · cases pre with
        | nil =>
          have he : e = idxminFold d e xs ∧ xs = post := by
            rw [List.nil_append] at hdec
            exact ⟨(List.cons.inj hdec).1, (List.cons.inj hdec).2⟩
          refine ⟨[], x :: xs, ?_, ?_⟩
          · rw [List.nil_append, ← he.1]
          · intro y hy
            exact absurd hy (List.not_mem_nil y)
        | cons p0 pre1 =>
          have hsplit : p0 = e ∧ xs = pre1 ++ idxminFold d e xs :: post := by
            rw [List.cons_append] at hdec
            exact ⟨((List.cons.inj hdec).1).symm, (List.cons.inj hdec).2⟩
          refine ⟨e :: x :: pre1, post, ?_, ?_⟩
          · rw [List.cons_append, List.cons_append, ← hsplit.2]
          · intro y hy
            have hlt_e : d (idxminFold d e xs) < d e := by
              have := hpre p0 (List.mem_cons_self p0 pre1)
              rw [hsplit.1] at this
              exact this
            rcases List.mem_cons.mp hy with hye | hy2
            · rw [hye]
              exact hlt_e
            · rcases List.mem_cons.mp hy2 with hyx | hyp1
              · rw [hyx]
                exact lt_of_lt_of_le hlt_e hex
              · exact hpre y (List.mem_cons_of_mem p0 hyp1)

/-- C4: for every record point and every non-empty gazetteer, the
resolver picks the entry minimising the Manhattan distance (the first
minimal entry in gazetteer order on ties — the fold result is a member,
is a lower bound, and every entry strictly before it is strictly
farther); when that minimum is below the fixed threshold 1/100 the
entry's name is assigned, otherwise the "unidentified region" sentinel;
and a point exactly matching some entry's coordinates resolves to the
(first) entry at distance zero, whose coordinates equal the point. -/
theorem claim4_region_resolution (lat lon : ℚ) (e : RefEntry) (es : List RefEntry) :
    (idxminFold (manhattanDiff lat lon) e es ∈ e :: es
     ∧ (∀ x ∈ e :: es,
          manhattanDiff lat lon (idxminFold (manhattanDiff lat lon) e es)
            ≤ manhattanDiff lat lon x)
     ∧ ∃ pre post, e :: es = pre ++ idxminFold (manhattanDiff lat lon) e es :: post
         ∧ ∀ x ∈ pre,
             manhattanDiff lat lon (idxminFold (manhattanDiff lat lon) e es)
               < manhattanDiff lat lon x)
  ∧ (manhattanDiff lat lon (idxminFold (manhattanDiff lat lon) e es) < 1/100 →
       get_nearest_area lat lon (e :: es) (1/100)
         = some (idxminFold (manhattanDiff lat lon) e es).kabupaten)
  ∧ (1/100 ≤ manhattanDiff lat lon (idxminFold (manhattanDiff lat lon) e es) →
       get_nearest_area lat lon (e :: es) (1/100)
         = some "Wilayah Jawa Timur (tidak teridentifikasi spesifik)")
  ∧ ((∃ x ∈ e :: es, x.lat = lat ∧ x.lon = lon) →
       (idxminFold (manhattanDiff lat lon) e es).lat = lat
     ∧ (idxminFold (manhattanDiff lat lon) e es).lon = lon
     ∧ get_nearest_area lat lon (e :: es) (1/100)
         = some (idxminFold (manhattanDiff lat lon) e es).kabupaten) := by
  obtain ⟨hmem, hmin, hfirst⟩ := idxminFold_spec (manhattanDiff lat lon) e es
  have hlt : ∀ h : manhattanDiff lat lon (idxminFold (manhattanDiff lat lon) e es) < 1/100,
      get_nearest_area lat lon (e :: es) (1/100)
        = some (idxminFold (manhattanDiff lat lon) e es).kabupaten := by
    intro h
    rw [get_nearest_area]
    simp only [if_pos h]
  refine ⟨⟨hmem, hmin, hfirst⟩, hlt, ?_, ?_⟩
  · intro h
    rw [get_nearest_area]
    simp only [if_neg (not_lt.mpr h)]
  · rintro ⟨x, hx, hxlat, hxlon⟩
    set b := idxminFold (manhattanDiff lat lon) e es with hbdef
    have hdx : manhattanDiff lat lon x = 0 := by
      rw [manhattanDiff, hxlat, hxlon]
      simp
    have hge : (0 : ℚ) ≤ manhattanDiff lat lon b := by
      rw [manhattanDiff]
      exact add_nonneg (abs_nonneg _) (abs_nonneg _)
    have hle := hmin x hx
    rw [hdx] at hle
    have hzero : manhattanDiff lat lon b = 0 := le_antisymm hle hge
    have hsum : |b.lat - lat| + |b.lon - lon| = 0 := by
      rw [manhattanDiff] at hzero
      exact hzero
    have habs1 := abs_nonneg (b.lat - lat)
    have habs2 := abs_nonneg (b.lon - lon)
    have hlat0 : |b.lat - lat| = 0 := by linarith
    have hlon0 : |b.lon - lon| = 0 := by linarith
    have hl1 := abs_eq_zero.mp hlat0
    have hl2 := abs_eq_zero.mp hlon0
    refine ⟨by linarith, by linarith, hlt ?_⟩
    rw [hzero]
    norm_num

/-- Witness for C4: a two-entry gazetteer; the point coincides with the
first entry and resolves to its name. -/
theorem claim4_region_resolution_witness :
    get_nearest_area 7 112 [RefEntry.mk "Surabaya" 7 112, RefEntry.mk "Malang" 8 113] (1/100)
      = some "Surabaya" := by
  have h := (claim4_region_resolution 7 112 (RefEntry.mk "Surabaya" 7 112)
      [RefEntry.mk "Malang" 8 113]).2.2.2
      ⟨RefEntry.mk "Surabaya" 7 112, List.mem_cons_self _ _, rfl, rfl⟩
  have hbest : idxminFold (manhattanDiff 7 112) (RefEntry.mk "Surabaya" 7 112)
      [RefEntry.mk "Malang" 8 113] = RefEntry.mk "Surabaya" 7 112 := by
    rw [idxminFold, if_neg, idxminFold]
    rw [manhattanDiff, manhattanDiff]
    norm_num
  rw [h.2.2, hbest]

/-! ### Coordinate-split claims -/

theorem to_numeric_eval (s : String) (neg : Bool) (ds : List Char) (p : Nat × Nat × Nat)
    (h1 : splitSign (pyStrip s.data) = (neg, ds)) (h2 : parseDecimalParts ds = some p) :
    to_numeric s = some (decimalQ neg p) := by
  simp only [to_numeric, h1, h2, Option.map_some']

theorem to_numeric_eval_none (s : String) (neg : Bool) (ds : List Char)
    (h1 : splitSign (pyStrip s.data) = (neg, ds)) (h2 : parseDecimalParts ds = none) :
    to_numeric s = none := by
  simp only [to_numeric, h1, h2]
  rfl

theorem splitOnce_first (sep : Char) (l r : List Char) (h : sep ∉ l) :
    splitOnce sep (l ++ sep :: r) = (l, some r) := by
  induction l with
  | nil => simp [splitOnce]
  | cons c cs ih =>
    have hne : ¬((c == sep) = true) := by
      simp only [beq_iff_eq]
      intro hceq
      exact h (by rw [hceq]; exact List.mem_cons_self _ _)
    have hnotin : sep ∉ cs := fun hm => h (List.mem_cons_of_mem c hm)
    rw [List.cons_append, splitOnce, if_neg hne, ih hnotin]

/-- C5 counterexample: the claim asserts that a comma-free cell yields
null latitude and null longitude; but when no cell of the combined
column contains a comma, `str.split(",", n=1, expand=True)` produces a
single column and the access `coords[1]` raises `KeyError` — the load
step fails rather than producing nulls. -/
theorem claim5_no_comma_counterexample :
    splitKoordinat ["abc"] = Except.error "KeyError: 1"
  ∧ splitKoordinat ["abc"] ≠ Except.ok [(none, none)] := by
  have h1 : splitKoordinat ["abc"] = Except.error "KeyError: 1" := rfl
  refine ⟨h1, ?_⟩
  rw [h1]
  intro h
  exact Except.noConfusion h

/-- C5 (amended): provided at least one cell of the combined column
contains a comma, every cell is split once at its first comma, the left
part numeric-coerced into latitude and the right part into longitude,
each half independently (a non-numeric or missing half becomes null
without affecting the other).  The split point really is the first
comma (for comma-free `l`, the cell `l ++ "," ++ r` splits into `l` and
`r`), and concretely the column ["-7.25,112.75", "abc,112.75", "abc"]
yields [(-7.25, 112.75), (null, 112.75), (null, null)].  When no cell
contains a comma, the longitude assignment instead fails with a
`KeyError`. -/
theorem claim5_coordinate_split_amended (cells : List String) (l r : List Char) :
    ((cells.all (fun c => (koordCell c).2.isNone)) = false →
      splitKoordinat cells = Except.ok (cells.map (fun c =>
        (to_numeric ⟨(koordCell c).1⟩, (koordCell c).2.bind (fun t => to_numeric ⟨t⟩)))))
  ∧ (',' ∉ l → koordCell ⟨l ++ ',' :: r⟩ = (l, some r))
  ∧ splitKoordinat ["-7.25,112.75", "abc,112.75", "abc"]
      = Except.ok [(some (-29/4), some (451/4)), (none, some (451/4)), (none, none)] := by
  refine ⟨?_, ?_, ?_⟩
  · intro h
    rw [splitKoordinat, if_neg (by simp [h])]
  · intro h
    rw [koordCell]
    exact splitOnce_first ',' l r h
  · have hcond : (["-7.25,112.75", "abc,112.75", "abc"].all
        (fun c => (koordCell c).2.isNone)) = false := by decide
    have k1 : koordCell "-7.25,112.75"
        = (['-','7','.','2','5'], some ['1','1','2','.','7','5']) := by decide
    have k2 : koordCell "abc,112.75"
        = (['a','b','c'], some ['1','1','2','.','7','5']) := by decide
    have k3 : koordCell "abc" = (['a','b','c'], none) := by decide
    have e1 : to_numeric ⟨['-','7','.','2','5']⟩ = some (-29/4) := by
      rw [to_numeric_eval ⟨['-','7','.','2','5']⟩ true ['7','.','2','5'] (7, 25, 2)
        (by decide) (by decide)]
      norm_num [decimalQ]
    have e2 : to_numeric ⟨['1','1','2','.','7','5']⟩ = some (451/4) := by
      rw [to_numeric_eval ⟨['1','1','2','.','7','5']⟩ false ['1','1','2','.','7','5'] (112, 75, 2)
        (by decide) (by decide)]
      norm_num [decimalQ]
    have e3 : to_numeric ⟨['a','b','c']⟩ = none :=
      to_numeric_eval_none ⟨['a','b','c']⟩ false ['a','b','c'] (by decide) (by decide)
    rw [splitKoordinat, if_neg (by simp [hcond])]
    simp [k1, k2, k3, e1, e2, e3]

/-- Witness for C5 (amended): the cell "1,2,3" splits at its first
comma into "1" and "2,3". -/
theorem claim5_coordinate_split_amended_witness :
    koordCell ⟨['1'] ++ ',' :: ['2', ',', '3']⟩ = (['1'], some ['2', ',', '3']) := by
  exact (claim5_coordinate_split_amended [] ['1'] ['2', ',', '3']).2.1 (by decide)

/-! ### Gantt range resolution (source lines 1003-1040) -/

/-- The date cells a Gantt row carries, as epoch-day numbers
(`pd.Timestamp` instants; adding `pd.Timedelta(days=30)` is adding 30
days). -/
structure GanttRow where
  tanggalInput : Option Int
  tanggalPenerapan : Option Int
  tanggalPengembangan : Option Int
deriving DecidableEq

/-- Civil date to epoch-day count (days since 1970-01-01, proleptic
Gregorian), for stating the concrete calendar example. -/
def daysFromCivil (y m d : Nat) : Int :=
  let yAdj := if m ≤ 2 then y - 1 else y
  let era := yAdj / 400
  let yoe := yAdj - era * 400
  let mp := (m + 9) % 12
  let doy := (153 * mp + 2) / 5 + d - 1
  let doe := yoe * 365 + yoe / 4 - yoe / 100 + doy
  (era : Int) * 146097 + (doe : Int) - 719468

/-- `gantt_df["Start"]` (source line 1010): the input date. -/
def ganttStart (r : GanttRow) : Option Int := r.tanggalInput

/-- `gantt_df["End"]` after lines 1013-1017: the application date,
filled with the development date where null. -/
def ganttEnd1 (r : GanttRow) : Option Int :=
  (r.tanggalPenerapan).orElse (fun _ => r.tanggalPengembangan)

/-- `gantt_df["End"]` after the 30-day default of lines 1020-1021:
where Start is present and End still null, End becomes Start plus 30
days. -/
def ganttEnd (r : GanttRow) : Option Int :=
  if (ganttStart r).isSome && (ganttEnd1 r).isNone then
    (ganttStart r).map (fun d => d + 30)
  else ganttEnd1 r

/-- The `dropna(subset=["Start", "End"])` row predicate (line 1024). -/
def ganttKeep (r : GanttRow) : Bool :=
  (ganttStart r).isSome && (ganttEnd r).isSome

/-- Sort key: the Start value (every kept row has one). -/
def startVal (r : GanttRow) : Int := (ganttStart r).getD 0

/-- The ordering used by `sort_values("Start")` (line 1040). -/
def startLE (a b : GanttRow) : Prop := startVal a ≤ startVal b

instance : DecidableRel startLE := fun a b =>
  inferInstanceAs (Decidable (startVal a ≤ startVal b))

instance : IsTotal GanttRow startLE := ⟨fun a b => Int.le_total (startVal a) (startVal b)⟩

instance : IsTrans GanttRow startLE := ⟨fun _ _ _ h1 h2 => le_trans h1 h2⟩

/-- The timeline frame `gantt_plot_df` (lines 1024 and 1040): drop the
rows without valid Start and End, sort ascending by Start. -/
def gantt_plot_df (rows : List GanttRow) : List GanttRow :=
  List.insertionSort startLE (rows.filter ganttKeep)

theorem ganttEnd_isSome_of_start (r : GanttRow)
    (h : (r.tanggalInput).isSome = true) : (ganttEnd r).isSome = true := by
  rcases r with ⟨ti, tp, tg⟩
  cases ti with
  | none => exact absurd h (by simp)
  | some t => cases tp <;> cases tg <;> rfl

/-- C6: per record the Gantt resolver takes Start from the input date;
End follows the fallback chain application date, then development date,
then — when both are null and Start is present — Start plus 30 days; a
record enters the timeline iff it belongs to the view and its input
date is present (null-Start records are excluded; a present Start
always yields a resolvable End); the record with input date 2024-01-10
and no application/development dates gets End 2024-02-09; and the
timeline is sorted ascending by Start. -/
theorem claim6_gantt_resolver (rows : List GanttRow) :
    (∀ r : GanttRow, ganttStart r = r.tanggalInput)
  ∧ (∀ r : GanttRow, ganttEnd r =
      ((r.tanggalPenerapan).orElse (fun _ => r.tanggalPengembangan)).orElse
        (fun _ => (r.tanggalInput).map (fun d => d + 30)))
  ∧ (∀ r : GanttRow, r ∈ gantt_plot_df rows ↔ r ∈ rows ∧ (r.tanggalInput).isSome = true)
  ∧ ganttEnd (GanttRow.mk (some (daysFromCivil 2024 1 10)) none none)
      = some (daysFromCivil 2024 2 9)
  ∧ List.Sorted startLE (gantt_plot_df rows) := by
  refine ⟨fun r => rfl, ?_, ?_, by decide, ?_⟩
  · intro r
    rcases r with ⟨ti, tp, tg⟩
    cases ti <;> cases tp <;> cases tg <;> rfl
  · intro r
    rw [gantt_plot_df]
    have hperm := List.perm_insertionSort startLE (rows.filter ganttKeep)
    constructor
    · intro h
      have h2 := hperm.mem_iff.mp h
      rw [List.mem_filter] at h2
      exact ⟨h2.1, (Bool.and_eq_true_iff.mp h2.2).1⟩
    · rintro ⟨hmem, hsome⟩
      have hkeep : ganttKeep r = true := by
        rw [ganttKeep, Bool.and_eq_true]
        exact ⟨hsome, ganttEnd_isSome_of_start r hsome⟩
      exact hperm.mem_iff.mpr (List.mem_filter.mpr ⟨hmem, hkeep⟩)
  · exact List.sorted_insertionSort startLE (rows.filter ganttKeep)

/-- A timeline row with a present Start, for the C6 witness. -/
def g6a : GanttRow := GanttRow.mk (some 5) none none

/-- A second timeline row, for the C6 witness. -/
def g6b : GanttRow := GanttRow.mk (some 3) (some 9) none

/-- Witness for C6: at a concrete view, a row with a present input date
is a member of the timeline frame. -/
theorem claim6_gantt_resolver_witness : g6a ∈ gantt_plot_df [g6a, g6b] := by
  exact ((claim6_gantt_resolver [g6a, g6b]).2.2.1 g6a).mpr ⟨List.mem_cons_self _ _, rfl⟩

end Dashboard
